import Mathlib

/-!
Verification of the RubeGoldberg engine layer (timer, sound pool, sprite
manager, renderer text path) against its natural-language specification.

The C++ classes are shallowly embedded as Lean structures and pure
functions.  Machine integers (`int`, millisecond times, indices) are
modelled as `Int`/`Nat`; `float` arithmetic is modelled exactly over `ℚ`
(every quantity the theorems mention is produced by a handful of exact
additions and divisions on small integer inputs, where `float` rounding is
either absent or irrelevant to the stated (in)equalities — noted at each
use).  The one place where C++ unsigned wrap-around is semantically
relevant (`size_t` arithmetic in `CRenderer::drawtext`) is modelled with an
explicit `% 2 ^ sizeTBits`.  Reads past the end of a C array are undefined
behaviour and are modelled by an `Option` result (`none` = undefined).
-/

/-! ### Timer (`timer.h` / `timer.cpp`, class `CTimer`)

All times are integer milliseconds, as in the source (`timeGetTime`
returns milliseconds; every member is a C `int`).  The ambient clock value
`t` (what `timeGetTime()` returns at the moment of a call) is passed as an
explicit argument to the operations that sample it. -/

structure CTimer where
  startTime : Int            -- m_nStartTime
  currentTime : Int          -- m_nCurrentTime
  lastFrameStartTime : Int   -- m_nLastFrameStartTime
  frameTime : Int            -- m_nFrameTime
  levelStartTime : Int       -- m_nLevelStartTime
  levelFinishTime : Int      -- m_nLevelFinishTime
  levelTimerOn : Bool        -- m_bLevelTimerOn
  stepMode : Bool            -- m_bStepMode
  deriving Repr, DecidableEq

namespace CTimer

/-- Model of `CTimer::CTimer()`: the constructor zeroes every field (the source does
not initialize `m_nCurrentTime`; we model it as 0). -/
def init : CTimer :=
  { startTime := 0, currentTime := 0, lastFrameStartTime := 0, frameTime := 0,
    levelStartTime := 0, levelFinishTime := 0, levelTimerOn := false, stepMode := false }

/-- Model of `CTimer::start()`: record the clock value `t` as the epoch. -/
def start (t : Int) (st : CTimer) : CTimer := { st with startTime := t }

/-- Model of `CTimer::time()`: return `m_nCurrentTime`. -/
def time (st : CTimer) : Int := st.currentTime

/-- Model of `CTimer::frametime()`: return `m_nFrameTime`. -/
def frametime (st : CTimer) : Int := st.frameTime

/-- Model of `CTimer::elapsed(int &start, int interval)`: if
`m_nCurrentTime >= start + interval`, set `start` to `m_nCurrentTime` and
return TRUE, else return FALSE leaving `start` alone.  The returned pair is
(result, new value of the by-reference argument `start`). -/
def elapsed (st : CTimer) (start interval : Int) : Bool × Int :=
  if st.currentTime ≥ start + interval then (true, st.currentTime)
  else (false, start)

/-- Model of `CTimer::beginframe()` at clock value `t`: set
`m_nCurrentTime = t - m_nStartTime`; unless in step mode set
`m_nFrameTime = t - m_nLastFrameStartTime`; set `m_nLastFrameStartTime = t`. -/
def beginframe (t : Int) (st : CTimer) : CTimer :=
  { st with
    currentTime := t - st.startTime,
    frameTime := if ¬st.stepMode then t - st.lastFrameStartTime else st.frameTime,
    lastFrameStartTime := t }

/-- Model of `CTimer::endframe()`: zero the frame time. -/
def endframe (st : CTimer) : CTimer := { st with frameTime := 0 }

/-- Model of `CTimer::IncrementFrame()`: in step mode set `m_nFrameTime = 34`
(the source comment says this is meant to be 1/60 of a second, i.e.
16.6666 ms); otherwise do nothing. -/
def IncrementFrame (st : CTimer) : CTimer :=
  if st.stepMode then { st with frameTime := 34 } else st

/-- Model of `CTimer::ToggleStepMode()`: flip the step-mode flag. -/
def ToggleStepMode (st : CTimer) : CTimer := { st with stepMode := ¬st.stepMode }

end CTimer

/-! ### Sound pool (`sound.cpp`, class `CSoundManager`)

After `CSoundManager::Load()` has run, `m_nCount` sounds exist and sound
`i` owns an array of `m_nInstanceCount[i]` playback instances.  We model
the post-`Load` manager as a list of per-sound instance-state lists
(`m_nCount = sounds.length`, `m_nInstanceCount[i] = (sounds[i]).length`)
together with the process-wide last-played pair.  An instance's
`GetState()` is one of the DirectXTK `SoundState` values; the code only
ever compares against `PLAYING`. -/

inductive SoundState where
  | stopped
  | playing
  | paused
  deriving Repr, DecidableEq

structure CSoundManager where
  sounds : List (List SoundState)  -- m_pInstance states / m_nInstanceCount
  lastPlayedSound : Int            -- m_nLastPlayedSound
  lastPlayedInstance : Int         -- m_nLastPlayedInstance
  deriving Repr, DecidableEq

namespace CSoundManager

/-- Model of `CSoundManager::getNextInstance(index)`, acting on the instance-state
array of one sound: scan from instance 0 upward and return the index of
the first instance whose state is not `PLAYING`, or the instance count if
every instance is playing (the source's `while` loop advances the instance counter
while the current state is `PLAYING`, refreshing the state only while
it is still in range, and finally returns the counter). -/
def getNextInstance : List SoundState → Nat
  | [] => 0
  | s :: rest => if s = SoundState.playing then getNextInstance rest + 1 else 0

/-- The instance-state array of sound `index` (caller must have
`0 ≤ index < sounds.length`; the C code indexes without a check). -/
def states (m : CSoundManager) (index : Int) : List SoundState :=
  m.sounds.getD index.toNat []

/-- Model of `CSoundManager::play(index)`: bail with -1 on a bad index; otherwise
find the next idle instance, start it playing if one exists, and record
(index, instance) as the last-played pair.  Returns (new manager, return
value). -/
def play (m : CSoundManager) (index : Int) : CSoundManager × Int :=
  if index < 0 ∨ index ≥ (m.sounds.length : Int) then (m, -1)
  else
    let st := m.states index
    let inst := getNextInstance st
    let sounds' :=
      if inst < st.length then
        m.sounds.set index.toNat (st.set inst SoundState.playing)
      else m.sounds
    ({ sounds := sounds', lastPlayedSound := index,
       lastPlayedInstance := (inst : Int) }, (inst : Int))

/-- Model of `CSoundManager::loop(index)`: identical control flow to `play`, but the
idle instance (when found) is started with `Play(true)`, i.e. looped; the
instance is in the `PLAYING` state either way. -/
def loop (m : CSoundManager) (index : Int) : CSoundManager × Int :=
  if index < 0 ∨ index ≥ (m.sounds.length : Int) then (m, -1)
  else
    let st := m.states index
    let inst := getNextInstance st
    let sounds' :=
      if inst < st.length then
        m.sounds.set index.toNat (st.set inst SoundState.playing)
      else m.sounds
    ({ sounds := sounds', lastPlayedSound := index,
       lastPlayedInstance := (inst : Int) }, (inst : Int))

/-- Outcome of a `move`/`pitch`/`volume` call.  The call never mutates the
modelled state; it either issues one audio-parameter call on a target
(sound, instance) pair (`some (some target)`), is silently skipped by the
instance-range guard (`some none`), or performs an out-of-bounds read of
`m_nInstanceCount` — undefined behaviour, modelled as `none`. -/
abbrev SoundCallResult := Option (Option (Int × Int))

/-- Substitution `if(index == -1) index = m_nLastPlayedSound;` shared
by `move`/`pitch`/`volume`. -/
def resolvedIndex (m : CSoundManager) (index : Int) : Int :=
  if index = -1 then m.lastPlayedSound else index

/-- Substitution `if(instance == -1) instance = m_nLastPlayedInstance;`
shared by `move`/`pitch`/`volume`. -/
def resolvedInstance (m : CSoundManager) (inst : Int) : Int :=
  if inst = -1 then m.lastPlayedInstance else inst

/-- Shared body of `CSoundManager::move/pitch/volume`: substitute the
last-played pair for a defaulted (`-1`) argument, then evaluate the guard
`instance >= 0 && instance < m_nInstanceCount[index]`.  The `&&`
short-circuits, so the array read `m_nInstanceCount[index]` happens only
when `instance >= 0`; that read is out of bounds (undefined behaviour)
unless `0 ≤ index < m_nCount`. -/
def soundParamCall (m : CSoundManager) (inst index : Int) : SoundCallResult :=
  let index := resolvedIndex m index
  let inst := resolvedInstance m inst
  if 0 ≤ inst then
    if 0 ≤ index ∧ index < (m.sounds.length : Int) then
      if inst < ((m.states index).length : Int) then some (some (index, inst))
      else some none
    else none
  else some none

/-- Model of `CSoundManager::pitch(p, instance, index)`: `SetPitch(p)` on the
resolved target when the guard passes.  `p` does not affect control flow. -/
def pitch (m : CSoundManager) (p : ℚ) (inst index : Int) : SoundCallResult :=
  soundParamCall m inst index

/-- Model of `CSoundManager::volume(v, instance, index)`: `SetVolume(v)` on the
resolved target when the guard passes. -/
def volume (m : CSoundManager) (v : ℚ) (inst index : Int) : SoundCallResult :=
  soundParamCall m inst index

/-- Model of `CSoundManager::move(ePos, instance, index)`: `Apply3D` with the
listener at (screenW/2, screenH/2, 0)/500 and the emitter at `ePos`/500 on
the resolved target when the guard passes; the positions do not affect
control flow. -/
def move (m : CSoundManager) (ePos : ℚ × ℚ × ℚ) (inst index : Int) : SoundCallResult :=
  soundParamCall m inst index

end CSoundManager

/-! ### Renderer text path (`renderer.cpp`, class `CRenderer`)

`CRenderer::drawtext` walks a string, classifies each character into a
sprite-sheet cell `(xoffset, y)`, and calls
`CRenderer::DrawCharFromSpriteSheet`, which computes the UV sub-rectangle
for that cell from the sheet dimensions, draws the glyph quad at the
cursor, and advances the cursor by one frame width.

`float` quantities are modelled over `ℚ`.  All UV/layout values the
theorems mention are exact rational functions of small integers; the only
claim-relevant rounding effect (the wrapped `size_t` start position being
astronomically large and nonnegative) survives any `float` rounding. -/

/-- Dimensions of the screen-text sprite sheet: `m_nWidth`/`m_nHeight` are
the sheet texture's pixel size (read back from the file), and
`m_nFrameWidth`/`m_nFrameHeight` the fixed frame size (21 × 37 in
`CRenderer::InitScreenText`). -/
structure SheetParams where
  width : Int        -- m_nWidth
  height : Int       -- m_nHeight
  frameWidth : Int   -- m_nFrameWidth
  frameHeight : Int  -- m_nFrameHeight
  deriving Repr, DecidableEq

/-- A normalized UV sub-rectangle as uploaded in the `ConstantBuffer`. -/
structure UVRect where
  u0 : ℚ
  u1 : ℚ
  v0 : ℚ
  v1 : ℚ
  deriving Repr, DecidableEq

/-- A position in render-world coordinates (`Vector3` with `float`
components, modelled over `ℚ`). -/
structure Vec3 where
  x : ℚ
  y : ℚ
  z : ℚ
  deriving Repr, DecidableEq

namespace CRenderer

/-- The UV computation of `CRenderer::DrawCharFromSpriteSheet(s, y, xoffset)`:
`x = 1 + xoffset*(m_nFrameWidth + 1)` in texture pixels, then
`u0 = x/(w-1)`, `u1 = (x+fw)/(w-1)`, `v0 = y/(h-1)`, `v1 = (y+fh)/(h-1)`
where `w`,`h` are the sheet's pixel width and height and `fw`,`fh` the
frame width and height. -/
def DrawCharFromSpriteSheetUV (p : SheetParams) (y xoffset : Int) : UVRect :=
  let x : Int := 1 + xoffset * (p.frameWidth + 1)
  { u0 := (x : ℚ) / ((p.width : ℚ) - 1),
    u1 := (((x + p.frameWidth : Int)) : ℚ) / ((p.width : ℚ) - 1),
    v0 := (y : ℚ) / ((p.height : ℚ) - 1),
    v1 := (((y + p.frameHeight : Int)) : ℚ) / ((p.height : ℚ) - 1) }

/-- The character classification of `CRenderer::drawtext`: the `(xoffset, y)`
sprite-sheet cell for character `c` — uppercase letters in the row at
pixel `y = 48` with column `c - 'A'`, lowercase letters in the row at
`y = 95` with column `c - 'a'`, digits in the row at `y = 0` with column
`c - '0'`, and everything else the fixed blank cell `xoffset = 10, y = 1`. -/
def charCell (c : Char) : Nat × Nat :=
  if 'A' ≤ c ∧ c ≤ 'Z' then (c.toNat - 'A'.toNat, 48)
  else if 'a' ≤ c ∧ c ≤ 'z' then (c.toNat - 'a'.toNat, 95)
  else if '0' ≤ c ∧ c ≤ '9' then (c.toNat - '0'.toNat, 0)
  else (10, 1)

/-- Bit width of `size_t` (the project ships a Win32 build, so 32; every
fact stated below about the wrapped value — that it is nonnegative and
larger than the screen — holds equally at width 64). -/
def sizeTBits : Nat := 32

/-- The starting x coordinate of `CRenderer::drawtext`, before the `/2.0f`:
the C++ expression `m_nScreenWidth - strlen(text)*m_pScreenText->m_nFrameWidth`
mixes `int` with `size_t`, so both operands are converted to `size_t` and
the subtraction is performed modulo `2 ^ sizeTBits` (reducing each operand
modulo `2 ^ sizeTBits` and reducing at the end are the same thing). -/
def drawtextStartXRaw (screenWidth frameWidth : Int) (len : Nat) : Int :=
  (screenWidth - (len : Int) * frameWidth) % ((2 : Int) ^ sizeTBits)

/-- The starting position of `CRenderer::drawtext` for a string of length
`len`: `x` is the wrapped `size_t` difference divided by `2.0f`, `y` is
`m_nScreenHeight/2.0f`, `z` is `-1000`. -/
def drawtextStart (screenWidth screenHeight frameWidth : Int) (len : Nat) : Vec3 :=
  { x := (drawtextStartXRaw screenWidth frameWidth len : ℚ) / 2,
    y := (screenHeight : ℚ) / 2,
    z := -1000 }

/-- The per-character loop of `CRenderer::drawtext`: each character is
classified by `charCell` and drawn at the cursor, and
`CRenderer::DrawCharFromSpriteSheet` then advances the cursor's `x` by
`m_nFrameWidth`.  Returns the glyph draw events (cursor position, cell). -/
def drawtextAux (frameWidth : Int) (pos : Vec3) : List Char → List (Vec3 × (Nat × Nat))
  | [] => []
  | c :: rest =>
      (pos, charCell c) ::
        drawtextAux frameWidth { pos with x := pos.x + (frameWidth : ℚ) } rest

/-- Model of `CRenderer::drawtext(text)`: start at the centering position and draw
the characters left to right. -/
def drawtext (screenWidth screenHeight frameWidth : Int) (text : List Char) :
    List (Vec3 × (Nat × Nat)) :=
  drawtextAux frameWidth (drawtextStart screenWidth screenHeight frameWidth text.length) text

end CRenderer

/-! ### Sprite manager (`SpriteMan.cpp`, class `CSpriteManager`)

`CSpriteManager::Load(sprite, name)` looks the name up among the
`<sprite>` children of the `<sprites>` tag of the global XML settings and
loads the named file; on any failure it calls `ABORT`.  We model the
relevant slice of the settings (presence of the settings and of the
`<sprites>` tag, and the name → file entries in order) and the outcome of
`C3DSprite::Load` on each file as a function `loadOk`. -/

/-- One `<sprite name=... file=...>` element. -/
structure SpriteEntry where
  name : String
  file : String
  deriving Repr, DecidableEq

/-- The `<sprites>` section of `g_xmlSettings`: `none` models a missing
`<sprites>` tag, `some entries` the list of its `<sprite>` children. -/
structure SpriteSettings where
  sprites : Option (List SpriteEntry)
  deriving Repr, DecidableEq

namespace CSpriteManager

/-- The scan in `CSpriteManager::Load`: walk the `<sprite>` children (if
the settings and the `<sprites>` tag exist) and take the first whose
`name` attribute matches. -/
def findSprite (xml : Option SpriteSettings) (name : String) : Option SpriteEntry :=
  match xml with
  | none => none
  | some s =>
    match s.sprites with
    | none => none
    | some entries => entries.find? (fun e => e.name == name)

/-- The message of `ABORT("Cannot load sprite \"%s\".\n", name)`. -/
def abortMsg (name : String) : String := "Cannot load sprite \"" ++ name ++ "\".\n"

/-- Model of `CSpriteManager::Load(sprite, name)`: `success` is set only when the
name is found and `LoadFile` (i.e. `C3DSprite::Load` on the entry's file)
returns TRUE; `ABORT` otherwise.  `Except.error msg` models the process
aborting with diagnostic `msg`; `Except.ok ()` models a normal return. -/
def Load (xml : Option SpriteSettings) (loadOk : String → Bool) (name : String) :
    Except String Unit :=
  let success :=
    match findSprite xml name with
    | some e => loadOk e.file
    | none => false
  if success then Except.ok () else Except.error (abortMsg name)

end CSpriteManager

/-! ### Helper lemmas: `getNextInstance` -/

namespace CSoundManager

theorem getNextInstance_le_length (l : List SoundState) : getNextInstance l ≤ l.length := by
  induction l with
  | nil => simp [getNextInstance]
  | cons s rest ih =>
      unfold getNextInstance
      split
      · simpa using ih
      · simp

theorem getNextInstance_playing_below (l : List SoundState) :
    ∀ j, j < getNextInstance l → l.getD j SoundState.stopped = SoundState.playing := by
  induction l with
  | nil => intro j hj; simp [getNextInstance] at hj
  | cons s rest ih =>
      intro j hj
      unfold getNextInstance at hj
      split at hj
      · cases j with
        | zero => simpa using ‹s = SoundState.playing›
        | succ n => simpa using ih n (by omega)
      · omega

theorem getNextInstance_not_playing (l : List SoundState)
    (h : getNextInstance l < l.length) :
    l.getD (getNextInstance l) SoundState.stopped ≠ SoundState.playing := by
  induction l with
  | nil => simp [getNextInstance] at h
  | cons s rest ih =>
      by_cases hs : s = SoundState.playing
      · unfold getNextInstance at h ⊢
        rw [if_pos hs] at h ⊢
        simp only [List.length_cons] at h
        simpa using ih (by omega)
      · unfold getNextInstance
        rw [if_neg hs]
        simpa using hs

theorem getNextInstance_eq_length_of_all_playing (l : List SoundState)
    (h : ∀ j, j < l.length → l.getD j SoundState.stopped = SoundState.playing) :
    getNextInstance l = l.length := by
  rcases eq_or_lt_of_le (getNextInstance_le_length l) with heq | hlt
  · exact heq
  · exact absurd (h _ hlt) (getNextInstance_not_playing l hlt)

end CSoundManager

/-! ### Example sound managers used by witnesses and counterexamples -/

/-- A manager with two sounds: sound 0 has instances [playing, stopped],
sound 1 has instances [playing, playing]. -/
def exMgr : CSoundManager :=
  { sounds := [[SoundState.playing, SoundState.stopped],
               [SoundState.playing, SoundState.playing]],
    lastPlayedSound := 0, lastPlayedInstance := 0 }

/-- A manager with a single sound with one idle instance. -/
def oneMgr : CSoundManager :=
  { sounds := [[SoundState.stopped]], lastPlayedSound := 0, lastPlayedInstance := 0 }

/-- C1: for every sound index with `n ≥ 1` created instances,
`getNextInstance` returns the smallest instance index in `0..n-1` whose
instance is not in the playing state, and returns `n` when all `n`
instances are playing. -/
theorem getNextInstance_returns_first_idle (m : CSoundManager) (index : Int)
    (h0 : 0 ≤ index) (h1 : index < (m.sounds.length : Int))
    (hn : 1 ≤ (m.states index).length) :
    (∀ j, j < CSoundManager.getNextInstance (m.states index) →
        (m.states index).getD j SoundState.stopped = SoundState.playing) ∧
    CSoundManager.getNextInstance (m.states index) ≤ (m.states index).length ∧
    (CSoundManager.getNextInstance (m.states index) < (m.states index).length →
        (m.states index).getD (CSoundManager.getNextInstance (m.states index))
          SoundState.stopped ≠ SoundState.playing) ∧
    ((∀ j, j < (m.states index).length →
        (m.states index).getD j SoundState.stopped = SoundState.playing) →
        CSoundManager.getNextInstance (m.states index) = (m.states index).length) :=
  ⟨CSoundManager.getNextInstance_playing_below (m.states index),
   CSoundManager.getNextInstance_le_length (m.states index),
   fun h' => CSoundManager.getNextInstance_not_playing (m.states index) h',
   CSoundManager.getNextInstance_eq_length_of_all_playing (m.states index)⟩

theorem getNextInstance_returns_first_idle_witness :
    CSoundManager.getNextInstance (exMgr.states 0) ≤ (exMgr.states 0).length ∧
    (exMgr.states 0).getD (CSoundManager.getNextInstance (exMgr.states 0))
      SoundState.stopped ≠ SoundState.playing :=
  ⟨(getNextInstance_returns_first_idle exMgr 0 (by decide) (by decide) (by decide)).2.1,
   (getNextInstance_returns_first_idle exMgr 0 (by decide) (by decide)
      (by decide)).2.2.1 (by decide)⟩

theorem play_sounds_unchanged_when_all_busy (m : CSoundManager) (index : Int)
    (h0 : 0 ≤ index) (h1 : index < (m.sounds.length : Int))
    (hall : ∀ j, j < (m.states index).length →
        (m.states index).getD j SoundState.stopped = SoundState.playing) :
    (m.play index).1.sounds = m.sounds := by
  have hg : ¬(index < 0 ∨ index ≥ (m.sounds.length : Int)) := by omega
  have hfull := CSoundManager.getNextInstance_eq_length_of_all_playing _ hall
  simp only [CSoundManager.play, if_neg hg, hfull, lt_self_iff_false, if_false]

theorem loop_sounds_unchanged_when_all_busy (m : CSoundManager) (index : Int)
    (h0 : 0 ≤ index) (h1 : index < (m.sounds.length : Int))
    (hall : ∀ j, j < (m.states index).length →
        (m.states index).getD j SoundState.stopped = SoundState.playing) :
    (m.loop index).1.sounds = m.sounds := by
  have hg : ¬(index < 0 ∨ index ≥ (m.sounds.length : Int)) := by omega
  have hfull := CSoundManager.getNextInstance_eq_length_of_all_playing _ hall
  simp only [CSoundManager.loop, if_neg hg, hfull, lt_self_iff_false, if_false]

/-- C2: for every valid sound index whose instances are all in the playing
state, `play` and `loop` start no playback and leave the state of every
instance of every sound unchanged (the request is dropped silently). -/
theorem play_loop_drop_when_all_busy (m : CSoundManager) (index : Int)
    (h0 : 0 ≤ index) (h1 : index < (m.sounds.length : Int))
    (hall : ∀ j, j < (m.states index).length →
        (m.states index).getD j SoundState.stopped = SoundState.playing) :
    (m.play index).1.sounds = m.sounds ∧ (m.loop index).1.sounds = m.sounds :=
  ⟨play_sounds_unchanged_when_all_busy m index h0 h1 hall,
   loop_sounds_unchanged_when_all_busy m index h0 h1 hall⟩

theorem play_loop_drop_when_all_busy_witness :
    (exMgr.play 1).1.sounds = exMgr.sounds ∧ (exMgr.loop 1).1.sounds = exMgr.sounds :=
  play_loop_drop_when_all_busy exMgr 1 (by decide) (by decide) (by decide)

/-- C10: after every `play`/`loop` with a valid index the last-played pair
is set to (index, chosen instance) even when all instances were busy; in
that dropped case the recorded instance equals `n` (out of range), so
subsequent `move`/`pitch`/`volume` with defaulted arguments are silently
ignored; an invalid index returns -1 and changes nothing. -/
theorem play_loop_record_last_played (m : CSoundManager) (index : Int)
    (h0 : 0 ≤ index) (h1 : index < (m.sounds.length : Int)) :
    ((m.play index).1.lastPlayedSound = index ∧
     (m.play index).1.lastPlayedInstance
        = (CSoundManager.getNextInstance (m.states index) : Int) ∧
     (m.play index).2 = (CSoundManager.getNextInstance (m.states index) : Int) ∧
     (m.loop index).1.lastPlayedSound = index ∧
     (m.loop index).1.lastPlayedInstance
        = (CSoundManager.getNextInstance (m.states index) : Int) ∧
     (m.loop index).2 = (CSoundManager.getNextInstance (m.states index) : Int)) ∧
    ((∀ j, j < (m.states index).length →
        (m.states index).getD j SoundState.stopped = SoundState.playing) →
      (m.play index).1.lastPlayedInstance = ((m.states index).length : Int) ∧
      (∀ q, CSoundManager.pitch (m.play index).1 q (-1) (-1) = some none) ∧
      (∀ v, CSoundManager.volume (m.play index).1 v (-1) (-1) = some none) ∧
      (∀ e, CSoundManager.move (m.play index).1 e (-1) (-1) = some none)) ∧
    (∀ index', index' < 0 ∨ (m.sounds.length : Int) ≤ index' →
      m.play index' = (m, -1) ∧ m.loop index' = (m, -1)) := by
  have hg : ¬(index < 0 ∨ index ≥ (m.sounds.length : Int)) := by omega
  refine ⟨?_, ?_, ?_⟩
  · simp [CSoundManager.play, CSoundManager.loop, if_neg hg]
  · intro hall
    have hfull := CSoundManager.getNextInstance_eq_length_of_all_playing _ hall
    have hsounds : (m.play index).1.sounds = m.sounds :=
      play_sounds_unchanged_when_all_busy m index h0 h1 hall
    have hlast : (m.play index).1.lastPlayedInstance = ((m.states index).length : Int) := by
      simp only [CSoundManager.play, if_neg hg, hfull]
    have hlastsnd : (m.play index).1.lastPlayedSound = index := by
      simp only [CSoundManager.play, if_neg hg]
    have hstates : (m.play index).1.states index = m.states index := by
      unfold CSoundManager.states
      rw [hsounds]
    have hres1 : CSoundManager.resolvedIndex (m.play index).1 (-1) = index := by
      unfold CSoundManager.resolvedIndex
      rw [if_pos rfl, hlastsnd]
    have hres2 : CSoundManager.resolvedInstance (m.play index).1 (-1)
        = ((m.states index).length : Int) := by
      unfold CSoundManager.resolvedInstance
      rw [if_pos rfl, hlast]
    have hcall : CSoundManager.soundParamCall (m.play index).1 (-1) (-1) = some none := by
      show (if 0 ≤ CSoundManager.resolvedInstance (m.play index).1 (-1) then _ else _) = _
      rw [hres1, hres2, hstates, hsounds]
      rw [if_pos (Int.natCast_nonneg _), if_pos ⟨h0, h1⟩, if_neg (lt_irrefl _)]
    exact ⟨hlast, fun _ => hcall, fun _ => hcall, fun _ => hcall⟩
  · intro index' hbad
    have hg' : index' < 0 ∨ index' ≥ (m.sounds.length : Int) := by omega
    constructor
    · simp only [CSoundManager.play, if_pos hg']
    · simp only [CSoundManager.loop, if_pos hg']

theorem play_loop_record_last_played_witness :
    (exMgr.play 1).1.lastPlayedSound = 1 ∧
    (exMgr.play 1).1.lastPlayedInstance = 2 ∧
    CSoundManager.pitch (exMgr.play 1).1 (3 / 2) (-1) (-1) = some none ∧
    exMgr.play 5 = (exMgr, -1) := by
  have h := play_loop_record_last_played exMgr 1 (by decide) (by decide)
  refine ⟨h.1.1, ?_, (h.2.1 (by decide)).2.1 (3 / 2), (h.2.2 5 (by decide)).1⟩
  have := h.1.2.1
  simpa using this

/-- C8 counterexample: with one sound (count 1), a `pitch`/`volume`/`move`
call targeting sound index 5 with instance index 0 is not ignored: the
guard `instance >= 0 && instance < m_nInstanceCount[index]` evaluates
`m_nInstanceCount[5]`, an out-of-bounds read (undefined behaviour,
modelled `none`), rather than the checked no-op `some none` the claim
asserts for every out-of-range target. -/
theorem sound_param_oob_index_not_ignored :
    CSoundManager.pitch oneMgr 1 0 5 = none ∧
    CSoundManager.volume oneMgr 1 0 5 = none ∧
    CSoundManager.move oneMgr ⟨1, 2, 3⟩ 0 5 = none ∧
    (none : CSoundManager.SoundCallResult) ≠ some none :=
  ⟨rfl, rfl, rfl, by decide⟩

/-- C8 amended: a `move`/`pitch`/`volume` call whose resolved instance
index is negative, or whose resolved sound index is in range while the
resolved instance index is out of range, is silently ignored (no
audio-parameter change, no state change, no error); but a nonnegative
resolved instance index combined with an out-of-range resolved sound index
causes an out-of-bounds read of the instance-count array (undefined
behaviour), not a checked no-op. -/
theorem sound_param_out_of_range (m : CSoundManager) (inst index : Int) :
    (CSoundManager.resolvedInstance m inst < 0 →
        CSoundManager.soundParamCall m inst index = some none) ∧
    (0 ≤ CSoundManager.resolvedInstance m inst →
     0 ≤ CSoundManager.resolvedIndex m index →
     CSoundManager.resolvedIndex m index < (m.sounds.length : Int) →
     ((m.states (CSoundManager.resolvedIndex m index)).length : Int)
        ≤ CSoundManager.resolvedInstance m inst →
        CSoundManager.soundParamCall m inst index = some none) ∧
    (0 ≤ CSoundManager.resolvedInstance m inst →
     ¬(0 ≤ CSoundManager.resolvedIndex m index ∧
       CSoundManager.resolvedIndex m index < (m.sounds.length : Int)) →
        CSoundManager.soundParamCall m inst index = none) ∧
    (∀ q, CSoundManager.pitch m q inst index = CSoundManager.soundParamCall m inst index) ∧
    (∀ v, CSoundManager.volume m v inst index = CSoundManager.soundParamCall m inst index) ∧
    (∀ e, CSoundManager.move m e inst index = CSoundManager.soundParamCall m inst index) := by
  refine ⟨?_, ?_, ?_, fun _ => rfl, fun _ => rfl, fun _ => rfl⟩
  · intro hneg
    show (if 0 ≤ CSoundManager.resolvedInstance m inst then _ else _) = _
    rw [if_neg (by omega)]
  · intro hi h0 h1 hcnt
    show (if 0 ≤ CSoundManager.resolvedInstance m inst then _ else _) = _
    rw [if_pos hi, if_pos ⟨h0, h1⟩, if_neg (by omega)]
  · intro hi hbad
    show (if 0 ≤ CSoundManager.resolvedInstance m inst then _ else _) = _
    rw [if_pos hi, if_neg hbad]

theorem sound_param_out_of_range_witness :
    CSoundManager.soundParamCall exMgr (-7) 0 = some none ∧
    CSoundManager.soundParamCall exMgr 5 0 = some none ∧
    CSoundManager.soundParamCall exMgr 0 7 = none ∧
    CSoundManager.pitch exMgr (1 / 2) 5 0 = CSoundManager.soundParamCall exMgr 5 0 :=
  ⟨(sound_param_out_of_range exMgr (-7) 0).1 (by decide),
   (sound_param_out_of_range exMgr 5 0).2.1 (by decide) (by decide) (by decide) (by decide),
   (sound_param_out_of_range exMgr 0 7).2.2.1 (by decide) (by decide),
   (sound_param_out_of_range exMgr 5 0).2.2.2.1 (1 / 2)⟩

/-- C3: `elapsed(start, interval)` returns true and sets `start` to the
current time iff the timer's current time is at least `start + interval`,
and otherwise returns false leaving `start` unchanged; immediately after a
reset (i.e. with `start` equal to the current time) it returns true again
only for a non-positive interval, so over any sequence of clock advances
it triggers exactly once each time the delta since the last reset reaches
`interval`. -/
theorem elapsed_characterization (st : CTimer) (start interval : Int) :
    (CTimer.elapsed st start interval
      = if start + interval ≤ st.currentTime then (true, st.currentTime)
        else (false, start)) ∧
    (CTimer.elapsed st st.currentTime interval).1 = decide (interval ≤ 0) := by
  constructor
  · unfold CTimer.elapsed
    rfl
  · unfold CTimer.elapsed
    rcases le_or_lt interval 0 with h | h
    · rw [if_pos (by omega)]
      simpa using h
    · rw [if_neg (by omega)]
      simpa using h

/-- C4 (code bug): with step mode enabled, `IncrementFrame()` sets the
frame time to 34 ms — but 34 ms is not 1/60 of a second (≈ 16.67 ms), the
synthetic delta both the claim and the function's own comment ("Increment
time by 1/60 of a second ... 1/60 of a second is 16.6666 milliseconds")
promise.  `beginframe()` does leave the frame time alone in step mode, as
claimed.  Evaluated at a concrete step-mode timer and clock value 500. -/
theorem incrementFrame_sets_34ms_not_a_sixtieth :
    (CTimer.IncrementFrame (CTimer.ToggleStepMode CTimer.init)).frameTime = 34 ∧
    (CTimer.beginframe 500 (CTimer.ToggleStepMode CTimer.init)).frameTime
      = (CTimer.ToggleStepMode CTimer.init).frameTime ∧
    ((34 : ℚ) / 1000 ≠ 1 / 60) :=
  ⟨by decide, by decide, by norm_num⟩

/-! ### Example settings used by the sprite-manager witness -/

/-- Settings with a `<sprites>` tag holding two entries. -/
def exSettings : SpriteSettings :=
  { sprites := some [⟨"ball", "ball.png"⟩, ⟨"ramp", "ramp.png"⟩] }

/-- C9: a `CSpriteManager::Load(id, name)` call whose name is not found in
the settings, or whose file load fails, aborts the process with the
diagnostic `Cannot load sprite "<name>".`; on a found name with a
successful load it does not abort. -/
theorem spriteManagerLoad_aborts_iff (xml : Option SpriteSettings)
    (loadOk : String → Bool) (name : String) :
    (CSpriteManager.findSprite xml name = none →
        CSpriteManager.Load xml loadOk name
          = Except.error (CSpriteManager.abortMsg name)) ∧
    (∀ e, CSpriteManager.findSprite xml name = some e → loadOk e.file = false →
        CSpriteManager.Load xml loadOk name
          = Except.error (CSpriteManager.abortMsg name)) ∧
    (∀ e, CSpriteManager.findSprite xml name = some e → loadOk e.file = true →
        CSpriteManager.Load xml loadOk name = Except.ok ()) := by
  refine ⟨?_, ?_, ?_⟩
  · intro h
    simp [CSpriteManager.Load, h]
  · intro e he hload
    simp [CSpriteManager.Load, he, hload]
  · intro e he hload
    simp [CSpriteManager.Load, he, hload]

theorem spriteManagerLoad_aborts_iff_witness :
    CSpriteManager.Load (some exSettings) (fun _ => true) "ball" = Except.ok () ∧
    CSpriteManager.Load (some exSettings) (fun _ => true) "wheel"
      = Except.error (CSpriteManager.abortMsg "wheel") ∧
    CSpriteManager.Load (some exSettings) (fun _ => false) "ball"
      = Except.error (CSpriteManager.abortMsg "ball") :=
  ⟨(spriteManagerLoad_aborts_iff (some exSettings) (fun _ => true) "ball").2.2
      ⟨"ball", "ball.png"⟩ (by decide) rfl,
   (spriteManagerLoad_aborts_iff (some exSettings) (fun _ => true) "wheel").1 (by decide),
   (spriteManagerLoad_aborts_iff (some exSettings) (fun _ => false) "ball").2.1
      ⟨"ball", "ball.png"⟩ (by decide) rfl⟩

/-! ### Helper lemmas: `drawtext` -/

/-- Default element for `List.getD` on glyph draw-event lists. -/
def defaultGlyph : Vec3 × (Nat × Nat) := (⟨0, 0, 0⟩, (0, 0))

theorem drawtextAux_length (fw : Int) (pos : Vec3) (cs : List Char) :
    (CRenderer.drawtextAux fw pos cs).length = cs.length := by
  induction cs generalizing pos with
  | nil => rfl
  | cons c rest ih => simp [CRenderer.drawtextAux, ih]

theorem drawtextAux_getD (fw : Int) (pos : Vec3) (cs : List Char) (i : Nat)
    (h : i < cs.length) :
    (CRenderer.drawtextAux fw pos cs).getD i defaultGlyph
      = ({ pos with x := pos.x + (i : ℚ) * (fw : ℚ) },
         CRenderer.charCell (cs.getD i ' ')) := by
  induction cs generalizing pos i with
  | nil => simp at h
  | cons c rest ih =>
      cases i with
      | zero =>
          show (pos, CRenderer.charCell c) = _
          simp
      | succ n =>
          have hn : n < rest.length := by simpa using h
          show (CRenderer.drawtextAux fw _ rest).getD n defaultGlyph = _
          rw [ih _ n hn]
          simp only [List.getD_cons_succ, Prod.mk.injEq]
          refine ⟨?_, trivial⟩
          show (⟨pos.x + (fw : ℚ) + (n : ℚ) * (fw : ℚ), pos.y, pos.z⟩ : Vec3) = _
          have : pos.x + (fw : ℚ) + (n : ℚ) * (fw : ℚ)
              = pos.x + ((n : ℚ) + 1) * (fw : ℚ) := by ring
          rw [this]
          push_cast
          rfl

/-- C6: for every character of a string passed to `drawtext`, the
sprite-sheet cell `(column, row)` is chosen by character class —
uppercase `'A'..'Z'` in the fixed row at pixel 48 with column `c - 'A'`,
lowercase `'a'..'z'` in the fixed row at pixel 95 with column `c - 'a'`,
digits `'0'..'9'` in the fixed row at pixel 0 with column `c - '0'`, and
every other character (including space) in the fixed blank cell
(column 10, row pixel 1). -/
theorem drawtext_cell_classification :
    (∀ c : Char, 'A' ≤ c → c ≤ 'Z' →
        CRenderer.charCell c = (c.toNat - 'A'.toNat, 48)) ∧
    (∀ c : Char, 'a' ≤ c → c ≤ 'z' →
        CRenderer.charCell c = (c.toNat - 'a'.toNat, 95)) ∧
    (∀ c : Char, '0' ≤ c → c ≤ '9' →
        CRenderer.charCell c = (c.toNat - '0'.toNat, 0)) ∧
    (∀ c : Char, ¬('A' ≤ c ∧ c ≤ 'Z') → ¬('a' ≤ c ∧ c ≤ 'z') → ¬('0' ≤ c ∧ c ≤ '9') →
        CRenderer.charCell c = (10, 1)) ∧
    (∀ (sw sh fw : Int) (text : List Char) (i : Nat), i < text.length →
        ((CRenderer.drawtext sw sh fw text).getD i defaultGlyph).2
          = CRenderer.charCell (text.getD i ' ')) := by
  refine ⟨?_, ?_, ?_, ?_, ?_⟩
  · intro c h1 h2
    unfold CRenderer.charCell
    rw [if_pos ⟨h1, h2⟩]
  · intro c h1 h2
    have n1 : (97 : Nat) ≤ c.toNat := h1
    unfold CRenderer.charCell
    rw [if_neg (fun hc => by have n2 : c.toNat ≤ 90 := hc.2; omega), if_pos ⟨h1, h2⟩]
  · intro c h1 h2
    have n2 : c.toNat ≤ 57 := h2
    unfold CRenderer.charCell
    rw [if_neg (fun hc => by have n3 : (65 : Nat) ≤ c.toNat := hc.1; omega),
      if_neg (fun hc => by have n3 : (97 : Nat) ≤ c.toNat := hc.1; omega),
      if_pos ⟨h1, h2⟩]
  · intro c h1 h2 h3
    unfold CRenderer.charCell
    rw [if_neg h1, if_neg h2, if_neg h3]
  · intro sw sh fw text i hi
    unfold CRenderer.drawtext
    rw [drawtextAux_getD _ _ _ i hi]

theorem drawtext_cell_classification_witness :
    CRenderer.charCell 'Q' = ('Q'.toNat - 'A'.toNat, 48) ∧
    CRenderer.charCell 'q' = ('q'.toNat - 'a'.toNat, 95) ∧
    CRenderer.charCell '7' = ('7'.toNat - '0'.toNat, 0) ∧
    CRenderer.charCell ' ' = (10, 1) ∧
    ((CRenderer.drawtext 640 480 21 ['A', ' ']).getD 1 defaultGlyph).2
      = CRenderer.charCell ' ' :=
  ⟨drawtext_cell_classification.1 'Q' (by decide) (by decide),
   drawtext_cell_classification.2.1 'q' (by decide) (by decide),
   drawtext_cell_classification.2.2.1 '7' (by decide) (by decide),
   drawtext_cell_classification.2.2.2.1 ' ' (by decide) (by decide) (by decide),
   drawtext_cell_classification.2.2.2.2 640 480 21 ['A', ' '] 1 (by decide)⟩

/-- C7 counterexample: for a 100-character string at screen width 640 and
frame width 21 (string wider than the screen), the claim's centering
formula gives `(640 - 100*21)/2 = -730 < 0`, but in
`m_nScreenWidth - strlen(text)*m_nFrameWidth` the `int` operands are
converted to the unsigned `size_t`, so the subtraction wraps to
`2^32 - 1460` and the first glyph is placed at the enormous nonnegative
x = `4294965836/2`, not at `-730`.  (At a 64-bit `size_t` the wrapped
value is different but equally enormous and nonnegative, so the claimed
formula fails there too.) -/
theorem drawtext_startx_wraps_for_wide_strings :
    ((CRenderer.drawtext 640 480 21 (List.replicate 100 'a')).getD 0 defaultGlyph).1.x
      = (4294965836 : ℚ) / 2 ∧
    (0 : ℚ) ≤ ((CRenderer.drawtext 640 480 21
        (List.replicate 100 'a')).getD 0 defaultGlyph).1.x ∧
    ((640 : ℚ) - (100 : ℚ) * 21) / 2 < 0 ∧
    ((CRenderer.drawtext 640 480 21 (List.replicate 100 'a')).getD 0 defaultGlyph).1.x
      ≠ ((640 : ℚ) - (100 : ℚ) * 21) / 2 := by
  have hx : ((CRenderer.drawtext 640 480 21
      (List.replicate 100 'a')).getD 0 defaultGlyph).1.x
      = (CRenderer.drawtextStart 640 480 21 100).x := by
    unfold CRenderer.drawtext
    rw [drawtextAux_getD _ _ _ 0 (by simp)]
    simp
  have hraw : CRenderer.drawtextStartXRaw 640 21 100 = 4294965836 := by decide
  have hval : (CRenderer.drawtextStart 640 480 21 100).x = (4294965836 : ℚ) / 2 := by
    unfold CRenderer.drawtextStart
    rw [hraw]
    norm_num
  rw [hx, hval]
  norm_num

/-- C7 amended: for a string that fits on the screen
(`L·frame_width ≤ screen_width`, with a nonnegative frame width and a
screen width within `int` range), `drawtext` draws glyph `i` at
x = `(screen_width - L·frame_width)/2 + i·frame_width`: the first glyph is
at the centering position `(screen_width - L·frame_width)/2`, each
subsequent glyph is exactly `frame_width` further right, and the total
advance over the string is `L × frame_width`.  For wider strings the
unsigned `size_t` subtraction wraps instead of going negative. -/
theorem drawtext_centered_layout (sw sh fw : Int) (text : List Char)
    (hfw : 0 ≤ fw) (hsw : sw < 2 ^ 31) (hfit : (text.length : Int) * fw ≤ sw) :
    (CRenderer.drawtext sw sh fw text).length = text.length ∧
    (∀ i : Nat, i < text.length →
        ((CRenderer.drawtext sw sh fw text).getD i defaultGlyph).1.x
          = ((sw : ℚ) - (text.length : ℚ) * (fw : ℚ)) / 2 + (i : ℚ) * (fw : ℚ)) ∧
    (∀ i : Nat, i + 1 < text.length →
        ((CRenderer.drawtext sw sh fw text).getD (i + 1) defaultGlyph).1.x
          - ((CRenderer.drawtext sw sh fw text).getD i defaultGlyph).1.x = (fw : ℚ)) := by
  have hp32 : ((2 : Int) ^ CRenderer.sizeTBits) = 4294967296 := by decide
  have h0 : (0 : Int) ≤ sw - (text.length : Int) * fw := by
    have hLfw : (0 : Int) ≤ (text.length : Int) * fw :=
      mul_nonneg (Int.natCast_nonneg _) hfw
    omega
  have hraw : CRenderer.drawtextStartXRaw sw fw text.length
      = sw - (text.length : Int) * fw := by
    unfold CRenderer.drawtextStartXRaw
    rw [hp32]
    refine Int.emod_eq_of_lt h0 ?_
    have hLfw : (0 : Int) ≤ (text.length : Int) * fw :=
      mul_nonneg (Int.natCast_nonneg _) hfw
    have : (2 : Int) ^ 31 = 2147483648 := by decide
    omega
  have hxs : (CRenderer.drawtextStart sw sh fw text.length).x
      = ((sw : ℚ) - (text.length : ℚ) * (fw : ℚ)) / 2 := by
    unfold CRenderer.drawtextStart
    rw [hraw]
    push_cast
    ring
  have hmain : ∀ i : Nat, i < text.length →
      ((CRenderer.drawtext sw sh fw text).getD i defaultGlyph).1.x
        = ((sw : ℚ) - (text.length : ℚ) * (fw : ℚ)) / 2 + (i : ℚ) * (fw : ℚ) := by
    intro i hi
    unfold CRenderer.drawtext
    rw [drawtextAux_getD _ _ _ i hi]
    show (CRenderer.drawtextStart sw sh fw text.length).x + (i : ℚ) * (fw : ℚ) = _
    rw [hxs]
  refine ⟨?_, hmain, ?_⟩
  · unfold CRenderer.drawtext
    exact drawtextAux_length _ _ _
  · intro i hi
    rw [hmain (i + 1) hi, hmain i (by omega)]
    push_cast
    ring

theorem drawtext_centered_layout_witness :
    ((CRenderer.drawtext 640 480 21 ['H', 'i']).getD 0 defaultGlyph).1.x = 299 ∧
    ((CRenderer.drawtext 640 480 21 ['H', 'i']).getD 1 defaultGlyph).1.x = 320 := by
  have h := drawtext_centered_layout 640 480 21 ['H', 'i']
    (by decide) (by decide) (by decide)
  constructor
  · rw [h.2.1 0 (by decide)]
    norm_num
  · rw [h.2.1 1 (by decide)]
    norm_num

/-- A concrete text sprite sheet: 256 × 95 pixel texture with the
21 × 37 frame size fixed in `CRenderer::InitScreenText`. -/
def textSheet : SheetParams :=
  { width := 256, height := 95, frameWidth := 21, frameHeight := 37 }

/-- C5 counterexample: on a 256-pixel-wide sheet with frame width 21, the
UV rectangle of the glyph at column 0 has width `21/255` and left edge
`1/255` — the code normalizes by `sheet width - 1`, not by the sheet
width, so neither the claimed width `21/256` nor the claimed left edge
`1/256` matches.  (The gap, about 1.6·10⁻⁴, is far above `float`
rounding.) -/
theorem drawCharUV_not_normalized_by_sheet_width :
    (CRenderer.DrawCharFromSpriteSheetUV textSheet 48 0).u1
        - (CRenderer.DrawCharFromSpriteSheetUV textSheet 48 0).u0 = (21 : ℚ) / 255 ∧
    (21 : ℚ) / 255 ≠ (21 : ℚ) / 256 ∧
    (CRenderer.DrawCharFromSpriteSheetUV textSheet 48 0).u0 = (1 : ℚ) / 255 ∧
    (1 : ℚ) / 255 ≠ (1 : ℚ) / 256 := by
  refine ⟨?_, by norm_num, ?_, by norm_num⟩ <;>
    norm_num [CRenderer.DrawCharFromSpriteSheetUV, textSheet]

/-- C5 amended: for a glyph drawn from the text sprite sheet at column
`c`, the selected UV rectangle has left edge
`(1 + c·(frame_width + 1)) / (sheet_width - 1)` and width
`frame_width / (sheet_width - 1)`: the pixel x of the left edge is
`1 + c·(frame_width + 1)` as claimed, but the conversion to normalized UV
divides by `sheet_width - 1`, not by the sheet width. -/
theorem drawCharUV_left_edge_and_width (p : SheetParams) (y c : Int) :
    (CRenderer.DrawCharFromSpriteSheetUV p y c).u0
      = ((1 + c * (p.frameWidth + 1) : Int) : ℚ) / ((p.width : ℚ) - 1) ∧
    (CRenderer.DrawCharFromSpriteSheetUV p y c).u1
        - (CRenderer.DrawCharFromSpriteSheetUV p y c).u0
      = (p.frameWidth : ℚ) / ((p.width : ℚ) - 1) := by
  unfold CRenderer.DrawCharFromSpriteSheetUV
  constructor
  · rfl
  · show (((1 + c * (p.frameWidth + 1) + p.frameWidth : Int)) : ℚ) / ((p.width : ℚ) - 1)
        - ((1 + c * (p.frameWidth + 1) : Int) : ℚ) / ((p.width : ℚ) - 1) = _
    rw [div_sub_div_same]
    push_cast
    ring_nf
